import Mathlib

/-!
Shallow embedding of the crew-disruption recovery core of the
United-Airline-Hackathon repository.

Conventions of the embedding:
* pandas DataFrames become Lean lists of structures; a row's columns become
  structure fields, keeping the source column names.
* timestamps are already-parsed clock values: integer seconds since an
  arbitrary epoch in the duty checker (which divides `total_seconds()` by
  3600), integer minutes in the repositioning matcher (which works in
  "%Y-%m-%d %H:%M" resolution and `timedelta(minutes=...)`).
* Python float arithmetic on durations is modelled over `ℚ`; `int(x)` is
  truncation toward zero (`pythonTrunc`).
* human-readable strings that interpolate formatted floats are modelled
  structurally (an inductive carrying exactly the interpolated data), so
  the theorems can speak about what a message names without reproducing
  Python's decimal float formatting.
* a dict that may lack a key is modelled with `Option` fields: `none`
  means the key is absent from the returned dict.
* a raised Python exception is modelled by an `Option`-valued function
  returning `none`: the `NameError` in the hotel booker's success branch
  (`hotel_booker.py` has no import statements, yet that branch calls
  `random.randint`), and the orchestrator's `IndexError` on a missing
  flight.
-/

namespace IOCCA

/-- Row of `crew_roster_df` (columns as in `iocca_mvp/main.py`):
`assigned_flight_id` and `duty_end` are nullable columns, `duty_end` held
as an already-parsed timestamp in seconds. -/
structure CrewMember where
  crew_id : String
  assigned_flight_id : Option String
  duty_end : Option Int
  status : String
  base : String
deriving Repr, DecidableEq

/-- The `duty_rules` dict of `check_legality`; `none` models an absent key,
read through `.get('max_duty_hours', 8)` / `.get('min_rest_hours', 10)`. -/
structure DutyRules where
  max_duty_hours : Option Int := none
  min_rest_hours : Option Int := none
deriving Repr, DecidableEq

/-- Structural model of the `reason` strings produced by `check_legality`:
each constructor carries exactly the data the Python f-string interpolates. -/
inductive LegalityReason where
  | crewNotFound (crew_id : String)
  | dutyExceeds (duty_duration_hours : ℚ) (max_duty_hours : Int)
  | restBelow (rest_duration_hours : ℚ) (min_rest_hours : Int)
  | withinLimits
deriving Repr, DecidableEq

/-- Return dict of `check_legality`. The source's crew-not-found branch
returns a dict without the `remaining_duty_minutes` key, hence the
`Option Int` field with `none` for "key absent". -/
structure LegalityResult where
  legal : Bool
  reason : LegalityReason
  remaining_duty_minutes : Option Int := none
deriving Repr, DecidableEq

/-- Python `int(q)` on a rational: truncation toward zero. -/
def pythonTrunc (q : ℚ) : Int :=
  if 0 ≤ q then q.floor else q.ceil

/-- Embedding of `check_legality` from `iocca_mvp/tools/duty_checker.py`.
`planned_start`/`planned_end` are the parsed timestamps in seconds (the
source parses ISO-8601 or "%Y-%m-%d %H:%M" strings first; parsing is out
of scope of the claims, so the embedding takes parsed values). -/
def check_legality (crew_id : String) (planned_start planned_end : Int)
    (duty_rules : DutyRules) (crew_roster_df : List CrewMember) : LegalityResult :=
  match crew_roster_df.find? (fun c => c.crew_id == crew_id) with
  | none => { legal := false, reason := .crewNotFound crew_id }
  | some crew_data =>
    let duty_duration : ℚ := ((planned_end - planned_start : Int) : ℚ) / 3600
    let max_duty : Int := duty_rules.max_duty_hours.getD 8
    if (max_duty : ℚ) < duty_duration then
      { legal := false
        reason := .dutyExceeds duty_duration max_duty
        remaining_duty_minutes := some 0 }
    else
      let legalResult : LegalityResult :=
        { legal := true
          reason := .withinLimits
          remaining_duty_minutes := some (pythonTrunc (((max_duty : ℚ) - duty_duration) * 60)) }
      match crew_data.duty_end with
      | some prev_duty_end =>
        let rest_duration : ℚ := ((planned_start - prev_duty_end : Int) : ℚ) / 3600
        let min_rest : Int := duty_rules.min_rest_hours.getD 10
        if rest_duration < (min_rest : ℚ) then
          { legal := false
            reason := .restBelow rest_duration min_rest
            remaining_duty_minutes := some 0 }
        else legalResult
      | none => legalResult

/-- Embedding of the `flight_id` branch of `query_crew_roster` from
`iocca_mvp/tools/crew_query.py`: all roster rows assigned to the flight. -/
def query_crew_roster_by_flight (flight_id : String)
    (crew_roster_df : List CrewMember) : List CrewMember :=
  crew_roster_df.filter (fun c => c.assigned_flight_id == some flight_id)

/-- Embedding of `find_spares` from `iocca_mvp/tools/crew_query.py`:
filter to unassigned active rows, return the first (`.iloc[0]`) or `None`. -/
def find_spares (current_flight : String) (crew_df : List CrewMember) :
    Option CrewMember :=
  let _ := current_flight
  let spares := crew_df.filter (fun c =>
    c.assigned_flight_id == none && c.status == "active")
  spares.head?

/-- Row of `hotel_inventory_df` (columns as in `iocca_mvp/main.py`). -/
structure Hotel where
  hotel_id : String
  location : String
  name : String
  available_rooms : Int
deriving Repr, DecidableEq

/-- Return dict of `book_hotel` as its docstring declares it: a tagged
union mirroring which keys the success and failure dicts carry. The
`success` variant is what the source's success branch is written to
build; see `book_hotel` for why it is never actually returned. -/
inductive BookResult where
  | success (hotel_id : String) (name : String) (confirmation : String)
  | failure (failure_reason : String)
deriving Repr, DecidableEq

/-- Descending order on `available_rooms`, the comparison behind
`sort_values('available_rooms', ascending=False)`. -/
def roomsGe (a b : Hotel) : Prop :=
  b.available_rooms ≤ a.available_rooms

instance : DecidableRel roomsGe :=
  fun a b => inferInstanceAs (Decidable (b.available_rooms ≤ a.available_rooms))

instance : IsTotal Hotel roomsGe :=
  ⟨fun a b => Int.le_total b.available_rooms a.available_rooms⟩

instance : IsTrans Hotel roomsGe :=
  ⟨fun _ _ _ hab hbc => le_trans hbc hab⟩

/-- Embedding of `book_hotel` from `iocca_mvp/tools/hotel_booker.py`:
filter to the location with rooms, sort by `available_rooms` descending,
take the top row. The module `hotel_booker.py` contains no import
statements, yet the success branch interpolates
`random.randint(1000, 9999)` into the confirmation f-string, so reaching
that branch raises `NameError: name 'random' is not defined` before the
success dict is built — modelled as `none`. `crew_id` is consumed only
by that never-completed f-string. Only the no-match branch returns. -/
def book_hotel (location crew_id : String) (hotel_inventory_df : List Hotel) :
    Option BookResult :=
  let _ := crew_id
  let available_hotels := List.insertionSort roomsGe
    (hotel_inventory_df.filter (fun h =>
      h.location == location && decide (0 < h.available_rooms)))
  match available_hotels.head? with
  | none => some (.failure ("No available rooms at " ++ location))
  | some _ => none

/-- Row of the repositioning-flight pool. `sched_dep`/`sched_arr` are the
parsed timestamps in minutes ("%Y-%m-%d %H:%M" resolution). `sched_arr_dt`
models the derived `pd.to_datetime` column the full matcher writes into
the DataFrame: `none` when the column is absent from a row. -/
structure RepoFlight where
  flight_id : String
  origin : String
  destination : String
  sched_dep : Int
  sched_arr : Int
  seats_available : Bool
  sched_arr_dt : Option Int := none
deriving Repr, DecidableEq

/-- Embedding of the simplified `reposition_flight_finder` from
`iocca_mvp/tools/reposition_finder.py`: filter the pool by route and seat
availability, return the matching rows as a list (no deadline filter). -/
def reposition_flight_finder (from_location to_location : String)
    (repositioning_flights_df : List RepoFlight) : List RepoFlight :=
  repositioning_flights_df.filter (fun f =>
    f.origin == from_location && f.destination == to_location && f.seats_available)

/-- Parsed `action_input` of `StatusQueryTools.reposition_flight_finder`
in `tools.py`; `sched_dep` already parsed to minutes. -/
structure RepositionRequest where
  from_base : String
  to_airport : String
  sched_dep : Int
  delay_minutes : Int
  report_buffer : Int
deriving Repr, DecidableEq

/-- Return value of the full matcher: either the no-match JSON (carrying
the computed `required_time`) or the earliest available flight (also with
`required_time`). -/
inductive RepositionResponse where
  | noMatch (required_time : Int)
  | found (required_time : Int) (earliest_available_flight : RepoFlight)
deriving Repr, DecidableEq

/-- Ascending order on `sched_arr`, the comparison behind
`sort_values(by='sched_arr')` (the fixed-width "%Y-%m-%d %H:%M" strings
sort exactly as the timestamps they encode). -/
def arrLe (a b : RepoFlight) : Prop :=
  a.sched_arr ≤ b.sched_arr

instance : DecidableRel arrLe :=
  fun a b => inferInstanceAs (Decidable (a.sched_arr ≤ b.sched_arr))

instance : IsTotal RepoFlight arrLe :=
  ⟨fun a b => Int.le_total a.sched_arr b.sched_arr⟩

instance : IsTrans RepoFlight arrLe :=
  ⟨fun _ _ _ hab hbc => le_trans hab hbc⟩

/-- Embedding of the full `StatusQueryTools.reposition_flight_finder` of
`tools.py`. `df_copy = self.reposition_flight_df` merely aliases the stored
DataFrame, so the `df_copy['sched_arr_dt'] = pd.to_datetime(...)` column
assignment mutates the shared pool: the function is modelled state-passing,
returning the response together with the pool as it is left behind. The
filtered result has the derived column dropped again
(`.drop(columns='sched_arr_dt')`) before the earliest row is returned. -/
def reposition_flight_finder_full (req : RepositionRequest)
    (reposition_flight_df : List RepoFlight) :
    RepositionResponse × List RepoFlight :=
  let projected_dep := req.sched_dep + req.delay_minutes
  let required_time := projected_dep - req.report_buffer
  let df_copy := reposition_flight_df.map (fun f =>
    { f with sched_arr_dt := some f.sched_arr })
  let available_flights :=
    (df_copy.filter (fun f =>
      f.origin == req.from_base && f.destination == req.to_airport &&
      f.seats_available && decide (f.sched_arr_dt.getD 0 ≤ required_time))).map
      (fun f => { f with sched_arr_dt := none })
  match (List.insertionSort arrLe available_flights).head? with
  | none => (.noMatch required_time, df_copy)
  | some earliest => (.found required_time earliest, df_copy)

/-- Row of the `policy_docs.json` documents loaded at module import. -/
structure PolicyDoc where
  id : String
  title : String
  text : String
deriving Repr, DecidableEq

/-- Policy record returned by `retrieve_policy` (scores over `ℚ` in place
of Python floats). -/
structure PolicyRecord where
  policy_id : String
  title : String
  policy_text : String
  score : ℚ
deriving Repr, DecidableEq

/-- The module constant `FALLBACK_POLICY` of
`iocca_mvp/policies/rag_policy_retriever.py`. -/
def FALLBACK_POLICY : PolicyRecord :=
  { policy_id := "fallback"
    title := "General Escalation"
    policy_text := "Situation requires manual review. Escalate to duty manager for case-by-case guidance."
    score := 0 }

/-- Module-level state of the retriever, passed explicitly: the loaded
policy documents, the configured confidence threshold (`RAGConfig` default
0.55), and an oracle abstracting the external embedding model — it stands
for `model.encode` + `cosine_similarity` + `argmax`, yielding the best
index and best score, with `none` modelling a raised exception anywhere
inside the `try` block. -/
structure PolicyEnv where
  oracle : String → Option (Nat × ℚ)
  policy_docs : List PolicyDoc
  confidence_threshold : ℚ := 0.55

/-- Embedding of `retrieve_policy` from
`iocca_mvp/policies/rag_policy_retriever.py`: on an oracle error the
`except` handler returns the fallback; below the confidence threshold the
fallback is returned; an out-of-range best index (an `IndexError` inside
the `try`) also lands in the `except` handler. -/
def retrieve_policy (env : PolicyEnv) (query : String) : PolicyRecord :=
  match env.oracle query with
  | none => FALLBACK_POLICY
  | some (best_idx, best_score) =>
    if best_score < env.confidence_threshold then
      FALLBACK_POLICY
    else
      match env.policy_docs.get? best_idx with
      | none => FALLBACK_POLICY
      | some best_policy =>
        { policy_id := best_policy.id
          title := best_policy.title
          policy_text := best_policy.text
          score := best_score }

/-- Row of `flight_schedule_df` (columns as in `iocca_mvp/main.py`),
timestamps parsed to seconds as consumed by `check_legality`. -/
structure Flight where
  flight_id : String
  origin : String
  destination : String
  scheduled_dep : Int
  scheduled_arr : Int
deriving Repr, DecidableEq

/-- Structural model of the `message` strings of the recovery results:
each constructor carries exactly the data the Python f-string names. -/
inductive Message where
  | allLegal
  | assignedSpare (crew_id : String)
  | repositioningVia (base : String) (flight_id : String)
  | noLegalCrewOrRepositioning
  | hotelBooked (crew_id : String) (hotel_name : String)
  | hotelUnavailable (location : String)
deriving Repr, DecidableEq

/-- Result dict of `handle_crew_assignment` / `handle_ops_support`:
`none` in an `Option` field models the key being absent from the dict. -/
structure RecoveryResult where
  status : String
  message : Message
  assigned_crew : Option (List CrewMember) := none
  spare_used : Option String := none
  policy : Option PolicyRecord := none
  hotel_info : Option BookResult := none
deriving Repr, DecidableEq

/-- Embedding of `handle_crew_assignment` from
`iocca_mvp/agents/crew_assignment.py`. Returns `none` exactly where the
Python raises: `.iloc[0]` on an empty flight lookup, and the unreachable
repositioning branch, which would subscript `spare` while `spare` is
`None` (the branch is guarded by `options`, and
`options = reposition_flight_finder(...) if spare else []` is evaluated
with `spare` falsy, so `options` is always the empty list there). -/
def handle_crew_assignment (env : PolicyEnv) (flight_id : String)
    (crew_roster_df : List CrewMember) (flight_schedule_df : List Flight)
    (repositioning_flights_df : List RepoFlight) (duty_rules : DutyRules) :
    Option RecoveryResult :=
  match (flight_schedule_df.filter (fun f => f.flight_id == flight_id)).head? with
  | none => none
  | some flight =>
    let dep_time := flight.scheduled_dep
    let arr_time := flight.scheduled_arr
    let assigned_crew := query_crew_roster_by_flight flight_id crew_roster_df
    let legal_crew := assigned_crew.filter (fun crew =>
      (check_legality crew.crew_id dep_time arr_time duty_rules crew_roster_df).legal)
    if legal_crew.length = assigned_crew.length then
      some { status := "legal"
             message := .allLegal
             assigned_crew := some legal_crew }
    else
      match find_spares flight_id crew_roster_df with
      | some spare =>
        some { status := "reassigned"
               message := .assignedSpare spare.crew_id
               assigned_crew := some [spare]
               spare_used := some spare.crew_id }
      | none =>
        let options : List RepoFlight := []
        match options.head? with
        | some _ => none
        | none =>
          let policy := retrieve_policy env "no legal crew and repositioning unavailable"
          some { status := "escalation_required"
                 message := .noLegalCrewOrRepositioning
                 policy := some policy }

/-- Embedding of `handle_ops_support` from `iocca_mvp/agents/ops_support.py`.
When `book_hotel` raises (`none`, see its doc comment) the exception
propagates out of the handler: no result dict is produced, modelled as
`none`. The `booked` branch is written as the source writes it
(`if result["success"]:`), but since `book_hotel` never returns a success
dict the branch is unreachable. -/
def handle_ops_support (env : PolicyEnv) (crew_id location : String)
    (hotel_inventory_df : List Hotel) : Option RecoveryResult :=
  match book_hotel location crew_id hotel_inventory_df with
  | none => none
  | some result =>
    match result with
    | .success _ hotel_name _ =>
      some { status := "booked"
             message := .hotelBooked crew_id hotel_name
             hotel_info := some result }
    | .failure _ =>
      let policy := retrieve_policy env "hotel full at layover location"
      some { status := "escalation_required"
             message := .hotelUnavailable location
             policy := some policy }

/-! ### Helper lemmas -/

/-- Python `int()` agrees with `floor` on nonnegative rationals. -/
theorem pythonTrunc_of_nonneg (q : ℚ) (hq : 0 ≤ q) : pythonTrunc q = q.floor :=
  if_pos hq

/-- Taking the first row of a filtered list is the first row satisfying the
filter. -/
theorem head?_filter_eq_find? {α : Type} (p : α → Bool) (l : List α) :
    (l.filter p).head? = l.find? p := by
  induction l with
  | nil => rfl
  | cons a t ih =>
    by_cases h : p a = true
    · rw [List.filter_cons, if_pos h, List.find?_cons_of_pos _ h]
      rfl
    · rw [List.filter_cons, if_neg h, List.find?_cons_of_neg _ h, ih]

/-- The first row of an insertion-sorted list belongs to the original list
and is related to every element of it. -/
theorem insertionSort_head?_spec {α : Type} (r : α → α → Prop) [DecidableRel r]
    [IsTotal α r] [IsTrans α r] (l : List α) (a : α)
    (h : (List.insertionSort r l).head? = some a) :
    a ∈ l ∧ ∀ b ∈ l, r a b := by
  obtain ⟨t, ht⟩ : ∃ t, List.insertionSort r l = a :: t := by
    cases hS : List.insertionSort r l with
    | nil => rw [hS] at h; cases h
    | cons x xs => rw [hS] at h; cases h; exact ⟨xs, rfl⟩
  constructor
  · exact (List.perm_insertionSort r l).subset (ht ▸ List.mem_cons_self a t)
  · intro b hb
    have hbS : b ∈ a :: t := ht ▸ (List.perm_insertionSort r l).symm.subset hb
    have hsorted := List.sorted_insertionSort r l
    rw [ht] at hsorted
    rcases List.mem_cons.mp hbS with hba | hbt
    · rw [hba]; exact (IsTotal.total a a).elim id id
    · exact List.rel_of_sorted_cons hsorted b hbt

/-- An insertion sort with an empty first row sorted an empty list. -/
theorem insertionSort_head?_none {α : Type} (r : α → α → Prop) [DecidableRel r]
    (l : List α) (h : (List.insertionSort r l).head? = none) : l = [] := by
  have hnil : List.insertionSort r l = [] := List.head?_eq_none_iff.mp h
  exact ((hnil ▸ List.perm_insertionSort r l).symm).eq_nil

/-- An insertion sort of a nonempty list has a first row. -/
theorem insertionSort_head?_some {α : Type} (r : α → α → Prop) [DecidableRel r]
    (l : List α) (hl : l ≠ []) :
    ∃ a, (List.insertionSort r l).head? = some a := by
  cases hS : List.insertionSort r l with
  | nil => exact absurd ((hS ▸ List.perm_insertionSort r l).symm.eq_nil) hl
  | cons x xs => exact ⟨x, rfl⟩

/-! ### Concrete data used by witnesses and counterexamples -/

/-- The duty rules of `iocca_mvp/main.py`. -/
def rulesStd : DutyRules := { max_duty_hours := some 8, min_rest_hours := some 10 }

/-- A crew member assigned to flight UA123. -/
def crewC001 : CrewMember :=
  { crew_id := "C001", assigned_flight_id := some "UA123", duty_end := none
    status := "active", base := "ORD" }

/-- An unassigned active crew member. -/
def crewC010 : CrewMember :=
  { crew_id := "C010", assigned_flight_id := none, duty_end := none
    status := "active", base := "SFO" }

/-- A policy environment whose oracle always errors. -/
def envNone : PolicyEnv := { oracle := fun _ => none, policy_docs := [] }

/-! ### Claims -/

/-- C3: for every duty window whose duration in hours exceeds the
configured `max_duty_hours` (read through `.get('max_duty_hours', 8)`),
`check_legality` returns `legal = false`, `remaining_duty_minutes = 0`,
and a reason naming the duty length and the limit, for every crew member
found in the roster regardless of the rest history recorded for them. -/
theorem check_legality_duty_exceeded
    (crew_id : String) (planned_start planned_end : Int)
    (duty_rules : DutyRules) (crew_roster_df : List CrewMember) (c : CrewMember)
    (hc : crew_roster_df.find? (fun x => x.crew_id == crew_id) = some c)
    (hd : (duty_rules.max_duty_hours.getD 8 : ℚ) <
      ((planned_end - planned_start : Int) : ℚ) / 3600) :
    check_legality crew_id planned_start planned_end duty_rules crew_roster_df =
      { legal := false
        reason := .dutyExceeds (((planned_end - planned_start : Int) : ℚ) / 3600)
          (duty_rules.max_duty_hours.getD 8)
        remaining_duty_minutes := some 0 } := by
  unfold check_legality
  rw [hc]
  dsimp only
  rw [if_pos hd]

theorem check_legality_duty_exceeded_witness :
    (([crewC001].find? (fun x => x.crew_id == "C001") = some crewC001) ∧
      (rulesStd.max_duty_hours.getD 8 : ℚ) < ((36000 - 0 : Int) : ℚ) / 3600) ∧
    check_legality "C001" 0 36000 rulesStd [crewC001] =
      { legal := false
        reason := .dutyExceeds (((36000 - 0 : Int) : ℚ) / 3600)
          (rulesStd.max_duty_hours.getD 8)
        remaining_duty_minutes := some 0 } :=
  ⟨⟨by decide, by norm_num [rulesStd]⟩,
    check_legality_duty_exceeded "C001" 0 36000 rulesStd [crewC001] crewC001
      (by decide) (by norm_num [rulesStd])⟩

/-- C4: for every duty window within the duty limit where the found crew
member has no recorded prior `duty_end` or rest of at least
`min_rest_hours`, `check_legality` returns `legal = true` with
`remaining_duty_minutes = floor((max_duty_hours - duration) * 60)`, a
value that is never negative. -/
theorem check_legality_within_limits
    (crew_id : String) (planned_start planned_end : Int)
    (duty_rules : DutyRules) (crew_roster_df : List CrewMember) (c : CrewMember)
    (hc : crew_roster_df.find? (fun x => x.crew_id == crew_id) = some c)
    (hd : ((planned_end - planned_start : Int) : ℚ) / 3600 ≤
      (duty_rules.max_duty_hours.getD 8 : ℚ))
    (hr : ∀ prev, c.duty_end = some prev →
      (duty_rules.min_rest_hours.getD 10 : ℚ) ≤
        ((planned_start - prev : Int) : ℚ) / 3600) :
    check_legality crew_id planned_start planned_end duty_rules crew_roster_df =
      { legal := true
        reason := .withinLimits
        remaining_duty_minutes := some
          ((((duty_rules.max_duty_hours.getD 8 : ℚ) -
            ((planned_end - planned_start : Int) : ℚ) / 3600) * 60).floor) } ∧
    0 ≤ (((duty_rules.max_duty_hours.getD 8 : ℚ) -
      ((planned_end - planned_start : Int) : ℚ) / 3600) * 60).floor := by
  have hsub : (0 : ℚ) ≤ (duty_rules.max_duty_hours.getD 8 : ℚ) -
      ((planned_end - planned_start : Int) : ℚ) / 3600 := sub_nonneg.mpr hd
  have hprod : (0 : ℚ) ≤ ((duty_rules.max_duty_hours.getD 8 : ℚ) -
      ((planned_end - planned_start : Int) : ℚ) / 3600) * 60 :=
    mul_nonneg hsub (by norm_num)
  have hfloor : (0 : Int) ≤ (((duty_rules.max_duty_hours.getD 8 : ℚ) -
      ((planned_end - planned_start : Int) : ℚ) / 3600) * 60).floor :=
    Rat.le_floor.mpr (by exact_mod_cast hprod)
  refine ⟨?_, hfloor⟩
  unfold check_legality
  rw [hc]
  have hnd : ¬ ((duty_rules.max_duty_hours.getD 8 : ℚ) <
      ((planned_end - planned_start : Int) : ℚ) / 3600) := not_lt.mpr hd
  dsimp only
  rw [if_neg hnd]
  cases hde : c.duty_end with
  | none => rw [pythonTrunc_of_nonneg _ hprod]
  | some prev =>
    have hrest := hr prev hde
    dsimp only
    rw [if_neg (not_lt.mpr hrest), pythonTrunc_of_nonneg _ hprod]

theorem check_legality_within_limits_witness :
    (([crewC010].find? (fun x => x.crew_id == "C010") = some crewC010) ∧
      ((18000 - 0 : Int) : ℚ) / 3600 ≤ (rulesStd.max_duty_hours.getD 8 : ℚ)) ∧
    (check_legality "C010" 0 18000 rulesStd [crewC010] =
      { legal := true
        reason := .withinLimits
        remaining_duty_minutes := some
          ((((rulesStd.max_duty_hours.getD 8 : ℚ) -
            ((18000 - 0 : Int) : ℚ) / 3600) * 60).floor) } ∧
    0 ≤ (((rulesStd.max_duty_hours.getD 8 : ℚ) -
      ((18000 - 0 : Int) : ℚ) / 3600) * 60).floor) :=
  ⟨⟨by decide, by norm_num [rulesStd]⟩,
    check_legality_within_limits "C010" 0 18000 rulesStd [crewC010] crewC010
      (by decide) (by norm_num [rulesStd]) (fun prev h => nomatch h)⟩

/-- C6: on a roster without the requested crew id, `check_legality` returns
(rather than raises) a crew-not-found result with `legal = false`; the
returned dict however omits the `remaining_duty_minutes` key declared by
the contract, shown here by evaluating the checker at such an input and
observing `remaining_duty_minutes = none` (key absent). -/
theorem check_legality_crew_not_found_missing_key :
    check_legality "C999" 0 32400 rulesStd [crewC001] =
      { legal := false
        reason := .crewNotFound "C999"
        remaining_duty_minutes := none } := by
  decide

/-- C7: `find_spares` returns the first roster entry (in roster iteration
order) whose assigned flight is null and whose status is active, and in
particular returns `none` — rather than raising — when every entry has a
non-null assigned flight or an inactive status. -/
theorem find_spares_first_unassigned_active (current_flight : String)
    (crew_df : List CrewMember) :
    find_spares current_flight crew_df =
      crew_df.find? (fun c => c.assigned_flight_id == none && c.status == "active") ∧
    ((∀ c ∈ crew_df, c.assigned_flight_id ≠ none ∨ c.status ≠ "active") →
      find_spares current_flight crew_df = none) := by
  have hfind : find_spares current_flight crew_df =
      crew_df.find? (fun c => c.assigned_flight_id == none && c.status == "active") :=
    head?_filter_eq_find? _ _
  refine ⟨hfind, fun hall => ?_⟩
  rw [hfind]
  apply List.find?_eq_none.mpr
  intro c hcmem
  rcases hall c hcmem with hfl | hst
  · simp [hfl]
  · simp [hst]

theorem find_spares_first_unassigned_active_witness :
    (∀ c ∈ [crewC001], c.assigned_flight_id ≠ none ∨ c.status ≠ "active") ∧
    find_spares "UA123" [crewC001] = none :=
  ⟨by decide,
    (find_spares_first_unassigned_active "UA123" [crewC001]).2 (by decide)⟩

/-- A hotel with no free rooms, as in `iocca_mvp/main.py`. -/
def hotelH001 : Hotel :=
  { hotel_id := "H001", location := "ORD", name := "Runway Inn", available_rooms := 0 }

/-- A hotel with free rooms, as in `iocca_mvp/main.py`. -/
def hotelH002 : Hotel :=
  { hotel_id := "H002", location := "SFO", name := "Jetlag Suites", available_rooms := 2 }

/-- C5 (evaluation at the failing input): `hotel_booker.py` never imports
`random`, yet the success branch interpolates `random.randint(1000, 9999)`
into the confirmation string, so whenever some inventory row matches the
location with rooms available `book_hotel` raises `NameError` (modelled
`none`) instead of returning the declared success dict; only the no-match
branch returns, as a failure value carrying the failure reason. The
claim's success contract and its never-raises guarantee both fail. -/
theorem book_hotel_raises_on_available_room :
    (∃ h ∈ [hotelH001, hotelH002], h.location = "SFO" ∧ 0 < h.available_rooms) ∧
    book_hotel "SFO" "C001" [hotelH001, hotelH002] = none ∧
    book_hotel "ATL" "C001" [hotelH001, hotelH002] =
      some (.failure ("No available rooms at " ++ "ATL")) := by
  decide

/-- The `required_time` computed by the full matcher:
`projected_dep - report_buffer` with `projected_dep = sched_dep + delay`. -/
def requiredTimeOf (req : RepositionRequest) : Int :=
  req.sched_dep + req.delay_minutes - req.report_buffer

/-- The `available_flights` DataFrame of the full matcher: the pool with
the derived column written, filtered by route, seats and deadline, with
the derived column dropped again. -/
def availableFlights (req : RepositionRequest) (pool : List RepoFlight) :
    List RepoFlight :=
  ((pool.map (fun f => { f with sched_arr_dt := some f.sched_arr })).filter
    (fun f => f.origin == req.from_base && f.destination == req.to_airport &&
      f.seats_available && decide (f.sched_arr_dt.getD 0 ≤ requiredTimeOf req))).map
    (fun f => { f with sched_arr_dt := none })

/-- The full matcher, written through its named parts. -/
theorem reposition_full_eq (req : RepositionRequest) (pool : List RepoFlight) :
    reposition_flight_finder_full req pool =
      match (List.insertionSort arrLe (availableFlights req pool)).head? with
      | none => (.noMatch (requiredTimeOf req),
          pool.map (fun f => { f with sched_arr_dt := some f.sched_arr }))
      | some earliest => (.found (requiredTimeOf req) earliest,
          pool.map (fun f => { f with sched_arr_dt := some f.sched_arr })) := rfl

/-- Membership in the matcher's `available_flights`: exactly the pool rows
matching route, seats and deadline, with the derived column dropped. -/
theorem mem_availableFlights (req : RepositionRequest) (pool : List RepoFlight)
    (e : RepoFlight) :
    e ∈ availableFlights req pool ↔
      ∃ g ∈ pool, g.origin = req.from_base ∧ g.destination = req.to_airport ∧
        g.seats_available = true ∧ g.sched_arr ≤ requiredTimeOf req ∧
        e = { g with sched_arr_dt := none } := by
  unfold availableFlights
  constructor
  · intro he
    obtain ⟨g1, hg1mem, hg1e⟩ := List.mem_map.mp he
    obtain ⟨hg1df, hpb⟩ := List.mem_filter.mp hg1mem
    obtain ⟨g, hg, hgg1⟩ := List.mem_map.mp hg1df
    subst hgg1
    simp only [Bool.and_eq_true, beq_iff_eq, decide_eq_true_eq, Option.getD_some] at hpb
    exact ⟨g, hg, hpb.1.1.1, hpb.1.1.2, hpb.1.2, hpb.2, hg1e.symm⟩
  · rintro ⟨g, hg, ho, hd, hs, ha, he⟩
    subst he
    refine List.mem_map.mpr ⟨{ g with sched_arr_dt := some g.sched_arr }, ?_, rfl⟩
    refine List.mem_filter.mpr ⟨List.mem_map.mpr ⟨g, hg, rfl⟩, ?_⟩
    simp [ho, hd, hs, ha]

/-- C2: the full repositioning matcher computes
`required_time = sched_dep + delay_minutes - report_buffer`, never
returns a flight arriving after `required_time`, returns — among the
pool rows matching origin, destination and seat availability that meet
the deadline — one with the earliest scheduled arrival, and when no row
survives the filter it returns a no-match response carrying the computed
`required_time`. -/
theorem reposition_flight_finder_full_spec (req : RepositionRequest)
    (pool : List RepoFlight) :
    (∀ t, (reposition_flight_finder_full req pool).1 = .noMatch t →
      t = req.sched_dep + req.delay_minutes - req.report_buffer ∧
      ∀ g ∈ pool, g.origin = req.from_base → g.destination = req.to_airport →
        g.seats_available = true →
        ¬ g.sched_arr ≤ req.sched_dep + req.delay_minutes - req.report_buffer) ∧
    (∀ t f, (reposition_flight_finder_full req pool).1 = .found t f →
      t = req.sched_dep + req.delay_minutes - req.report_buffer ∧
      f.origin = req.from_base ∧ f.destination = req.to_airport ∧
      f.seats_available = true ∧
      f.sched_arr ≤ req.sched_dep + req.delay_minutes - req.report_buffer ∧
      (∃ g ∈ pool, f = { g with sched_arr_dt := none }) ∧
      (∀ g ∈ pool, g.origin = req.from_base → g.destination = req.to_airport →
        g.seats_available = true →
        g.sched_arr ≤ req.sched_dep + req.delay_minutes - req.report_buffer →
        f.sched_arr ≤ g.sched_arr)) := by
  have heq := reposition_full_eq req pool
  cases hh : (List.insertionSort arrLe (availableFlights req pool)).head? with
  | none =>
    have hAnil : availableFlights req pool = [] := insertionSort_head?_none _ _ hh
    have h1 : (reposition_flight_finder_full req pool).1 =
        .noMatch (requiredTimeOf req) := by
      rw [heq]
      rw [hh]
    constructor
    · intro t ht
      rw [h1] at ht
      injection ht with h2
      refine ⟨h2.symm, ?_⟩
      intro g hg ho hd hs hle
      have hmem : ({ g with sched_arr_dt := none } : RepoFlight) ∈
          availableFlights req pool :=
        (mem_availableFlights req pool _).mpr ⟨g, hg, ho, hd, hs, hle, rfl⟩
      rw [hAnil] at hmem
      cases hmem
    · intro t f ht
      rw [h1] at ht
      exact RepositionResponse.noConfusion ht
  | some e =>
    obtain ⟨heA, hmin⟩ := insertionSort_head?_spec arrLe _ e hh
    obtain ⟨g0, hg0, ho0, hd0, hs0, ha0, hef⟩ :=
      (mem_availableFlights req pool e).mp heA
    have h1 : (reposition_flight_finder_full req pool).1 =
        .found (requiredTimeOf req) e := by
      rw [heq]
      rw [hh]
    constructor
    · intro t ht
      rw [h1] at ht
      exact RepositionResponse.noConfusion ht
    · intro t f ht
      rw [h1] at ht
      injection ht with h2 h3
      subst h3
      refine ⟨h2.symm, ?_, ?_, ?_, ?_, ⟨g0, hg0, hef⟩, ?_⟩
      · rw [hef]; exact ho0
      · rw [hef]; exact hd0
      · rw [hef]; exact hs0
      · rw [hef]; exact ha0
      · intro g hg ho hd hs hle
        have hmem : ({ g with sched_arr_dt := none } : RepoFlight) ∈
            availableFlights req pool :=
          (mem_availableFlights req pool _).mpr ⟨g, hg, ho, hd, hs, hle, rfl⟩
        exact hmin { g with sched_arr_dt := none } hmem

/-- A repositioning request with a 210-minute delay and 60-minute buffer. -/
def reqW : RepositionRequest :=
  { from_base := "DEN", to_airport := "ORD", sched_dep := 600
    delay_minutes := 210, report_buffer := 60 }

/-- A seat-available repositioning flight DEN → ORD arriving at 700. -/
def flightRP1 : RepoFlight :=
  { flight_id := "RP1", origin := "DEN", destination := "ORD"
    sched_dep := 400, sched_arr := 700, seats_available := true }

theorem reposition_flight_finder_full_spec_witness :
    (750 : Int) = reqW.sched_dep + reqW.delay_minutes - reqW.report_buffer ∧
    flightRP1.origin = reqW.from_base ∧
    flightRP1.destination = reqW.to_airport ∧
    flightRP1.seats_available = true ∧
    flightRP1.sched_arr ≤ reqW.sched_dep + reqW.delay_minutes - reqW.report_buffer ∧
    (∃ g ∈ [flightRP1], flightRP1 = { g with sched_arr_dt := none }) ∧
    (∀ g ∈ [flightRP1], g.origin = reqW.from_base → g.destination = reqW.to_airport →
      g.seats_available = true →
      g.sched_arr ≤ reqW.sched_dep + reqW.delay_minutes - reqW.report_buffer →
      flightRP1.sched_arr ≤ g.sched_arr) :=
  (reposition_flight_finder_full_spec reqW [flightRP1]).2 750 flightRP1 (by decide)

/-- C10 (counterexample): a call to the full matcher does not leave the
pool held by the tools object unchanged — on a one-row pool the stored
DataFrame differs after the call (it gained the `sched_arr_dt` column). -/
theorem reposition_pool_mutation_counterexample :
    (reposition_flight_finder_full reqW [flightRP1]).2 ≠ [flightRP1] := by
  decide

/-- C10 (amended): a call to the full matcher leaves every pool row's
original columns unchanged row-for-row, but writes the derived
`sched_arr_dt` column (the parsed scheduled arrival) into the pool held
by the tools object; the simplified per-call finder takes the pool by
value and performs no update. -/
theorem reposition_pool_state_after_call (req : RepositionRequest)
    (pool : List RepoFlight) :
    (reposition_flight_finder_full req pool).2 =
      pool.map (fun f => { f with sched_arr_dt := some f.sched_arr }) := by
  rw [reposition_full_eq]
  cases hh : (List.insertionSort arrLe (availableFlights req pool)).head? with
  | none => rfl
  | some e => rfl

/-- C8: `retrieve_policy` always returns a valid record — either one built
from a loaded policy document or the fallback record — and returns the
fallback whenever the retrieval errors (oracle `none`) or the best score
is below the configured confidence threshold, whose `RAGConfig` default
is 0.55. -/
theorem retrieve_policy_always_valid (env : PolicyEnv) (query : String) :
    ((∃ d ∈ env.policy_docs, ∃ s : ℚ, retrieve_policy env query =
        { policy_id := d.id, title := d.title, policy_text := d.text, score := s }) ∨
      retrieve_policy env query = FALLBACK_POLICY) ∧
    (env.oracle query = none → retrieve_policy env query = FALLBACK_POLICY) ∧
    (∀ i s, env.oracle query = some (i, s) → s < env.confidence_threshold →
      retrieve_policy env query = FALLBACK_POLICY) ∧
    (∀ f docs, ({ oracle := f, policy_docs := docs } : PolicyEnv).confidence_threshold =
      0.55) := by
  refine ⟨?_, ?_, ?_, fun f docs => rfl⟩
  · cases ho : env.oracle query with
    | none =>
      right
      unfold retrieve_policy
      rw [ho]
    | some p =>
      obtain ⟨i, s⟩ := p
      by_cases hs : s < env.confidence_threshold
      · right
        unfold retrieve_policy
        rw [ho]
        dsimp only
        rw [if_pos hs]
      · cases hd : env.policy_docs.get? i with
        | none =>
          right
          unfold retrieve_policy
          rw [ho]
          dsimp only
          rw [if_neg hs, hd]
        | some d =>
          left
          refine ⟨d, List.get?_mem hd, s, ?_⟩
          unfold retrieve_policy
          rw [ho]
          dsimp only
          rw [if_neg hs, hd]
  · intro h
    unfold retrieve_policy
    rw [h]
  · intro i s h hs
    unfold retrieve_policy
    rw [h]
    dsimp only
    rw [if_pos hs]

theorem retrieve_policy_always_valid_witness :
    envNone.oracle "no legal crew and repositioning unavailable" = none ∧
    retrieve_policy envNone "no legal crew and repositioning unavailable" =
      FALLBACK_POLICY :=
  ⟨rfl,
    (retrieve_policy_always_valid envNone
      "no legal crew and repositioning unavailable").2.1 rfl⟩

/-- The disrupted flight of `iocca_mvp/main.py`, with a 10-hour scheduled
window (illegal under an 8-hour duty limit). -/
def flightUA123 : Flight :=
  { flight_id := "UA123", origin := "ORD", destination := "SFO"
    scheduled_dep := 0, scheduled_arr := 36000 }

/-- The same flight with a 5-hour window (legal under the 8-hour limit). -/
def flightUA123Short : Flight :=
  { flight_id := "UA123", origin := "ORD", destination := "SFO"
    scheduled_dep := 0, scheduled_arr := 18000 }

/-- C9 (evaluation at the failing input): a disruption-handling pass that
reaches ground support with an available hotel room produces no
RecoveryResult at all — `book_hotel` raises `NameError` inside
`handle_ops_support` (unimported `random`), the exception propagating out
of the handler, modelled as `none` — so the `booked` status is
unreachable and "exactly one RecoveryResult per pass" fails; a pass at a
location with no free room still produces exactly one result, an
`escalation_required` carrying only the policy field. -/
theorem handle_ops_support_booking_pass_raises :
    (∃ h ∈ [hotelH001, hotelH002], h.location = "SFO" ∧ 0 < h.available_rooms) ∧
    handle_ops_support envNone "C001" "SFO" [hotelH001, hotelH002] = none ∧
    handle_ops_support envNone "C001" "ATL" [hotelH001, hotelH002] =
      some { status := "escalation_required"
             message := .hotelUnavailable "ATL"
             policy := some FALLBACK_POLICY } := by
  decide

/-- C1 (evaluation at the failing input): with one illegal assigned crew
member, no spare in the roster, and a seat-available repositioning flight
into the disrupted flight's origin in the pool, `handle_crew_assignment`
returns `escalation_required` — never `repositioning_initiated`. The
repositioning branch is unreachable: it runs only when no spare was
found, yet `options = reposition_flight_finder(...) if spare else []` is
then evaluated with `spare = None`, so `options` is always empty there. -/
theorem handle_crew_assignment_no_spare_escalates :
    handle_crew_assignment envNone "UA123" [crewC001] [flightUA123] [flightRP1] rulesStd =
      some { status := "escalation_required", message := .noLegalCrewOrRepositioning
             policy := some FALLBACK_POLICY } ∧
    flightRP1.seats_available = true ∧ flightRP1.destination = flightUA123.origin ∧
    reposition_flight_finder flightRP1.origin flightUA123.origin [flightRP1] ≠ [] := by
  refine ⟨?_, rfl, rfl, by decide⟩
  norm_num [handle_crew_assignment, query_crew_roster_by_flight, check_legality,
    find_spares, retrieve_policy, envNone, rulesStd, crewC001, flightUA123, flightRP1]

end IOCCA
